import Mathlib

/-!
Shallow embedding of the ALPHAZERO trading-session core
(src/services/RiskManager.js, src/services/TradingSessionManager.js,
src/unnamed/part_002 = services/TradingEngine.js,
src/services/MarketDataStream.js) and proofs about the spec claims.

JavaScript numbers that flow through `typeof`-checks and comparisons are
modelled by `JSVal`: a rational number, the special `NaN` value (which has
number type in JS but makes every `<=` / `>` comparison evaluate to false),
or a value of non-number type (`undef`).  Monetary amounts are rationals;
counters are naturals.
-/

/-- A JavaScript number-ish value as seen by the risk / staking code:
a finite number, `NaN` (typeof number, all order comparisons false),
or a value whose `typeof` is not `number`. -/
inductive JSVal where
  | num : ℚ → JSVal
  | nan : JSVal
  | undef : JSVal
deriving DecidableEq, Repr

/-- `typeof v === 'number'` — true for finite numbers and for `NaN`. -/
def JSVal.isNumberType : JSVal → Bool
  | num _ => true
  | nan => true
  | undef => false

/-- JS `a <= b`: false whenever either side is `NaN` or not a number. -/
def JSVal.jsLe : JSVal → JSVal → Bool
  | num a, num b => a ≤ b
  | _, _ => false

/-- JS `a > b`: false whenever either side is `NaN` or not a number. -/
def JSVal.jsGt : JSVal → JSVal → Bool
  | num a, num b => b < a
  | _, _ => false

/-- JS truthiness of a number-ish value: `0`, `NaN` and non-numbers are falsy. -/
def JSVal.truthy : JSVal → Bool
  | num a => a ≠ 0
  | nan => false
  | undef => false

/-- JS `a || b`. -/
def JSVal.jsOr (a b : JSVal) : JSVal := if a.truthy then a else b

/-- Terminal and live statuses of a `TradingSession` document
(src/services/TradingSessionManager.js). -/
inductive SessionStatus where
  | active
  | completed
  | stopped_user
  | stopped_auto
deriving DecidableEq, Repr

/-- The fields of the persisted `TradingSession` document that the session
manager and risk manager read and write. -/
structure SessionDoc where
  initial_balance : ℚ
  final_balance : ℚ
  consecutive_losses : ℕ
  total_trades : ℕ
  winning_trades : ℕ
  status : SessionStatus
  session_end : Option ℚ
deriving DecidableEq, Repr

/-- The part of the analyzer output (`analysis`) that `approveTrade` reads. -/
structure Analysis where
  amount : JSVal
deriving DecidableEq, Repr

/-- RiskManager.approveTrade (src/services/RiskManager.js lines 9-26):
rejects when session or analysis is missing or `typeof analysis.amount`
is not `number`; rejects when `analysis.amount <= 0`; rejects when
`analysis.amount > session.final_balance`; approves otherwise. -/
def approveTrade (session : Option SessionDoc) (analysis : Option Analysis) : Bool :=
  match session, analysis with
  | some s, some a =>
    if ¬ a.amount.isNumberType then false
    else if a.amount.jsLe (.num 0) then false
    else if a.amount.jsGt (.num s.final_balance) then false
    else true
  | _, _ => false

/-- Advice returned by `checkSessionLimits`. -/
inductive RiskAdvice where
  | cont
  | stop
deriving DecidableEq, Repr

/-- The limits configuration read by `checkSessionLimits`; a zero value
models an unset / falsy JS field (the source guards each check with the
truthiness of the corresponding config field). -/
structure SessionLimitsConfig where
  max_consecutive_losses : ℕ
  daily_loss_limit_percentage : ℚ
deriving DecidableEq, Repr

/-- The snapshot passed to `checkSessionLimits`. -/
structure SessionRiskState where
  initial_balance : ℚ
  final_balance : ℚ
  consecutive_losses : ℕ
  config : Option SessionLimitsConfig
deriving DecidableEq, Repr

/-- RiskManager.checkSessionLimits (src/services/RiskManager.js lines 28-57):
returns `cont` when the snapshot or its config is missing; advises `stop`
when `config.max_consecutive_losses` is truthy and
`consecutive_losses >= config.max_consecutive_losses`; otherwise advises
`stop` when `config.daily_loss_limit_percentage` is truthy and
`initial_balance - final_balance >= initial_balance * percentage`;
otherwise `cont`. -/
def checkSessionLimits (s : Option SessionRiskState) : RiskAdvice :=
  match s with
  | none => .cont
  | some st =>
    match st.config with
    | none => .cont
    | some cfg =>
      if cfg.max_consecutive_losses ≠ 0 ∧
          cfg.max_consecutive_losses ≤ st.consecutive_losses then .stop
      else if cfg.daily_loss_limit_percentage ≠ 0 ∧
          st.initial_balance * cfg.daily_loss_limit_percentage ≤
            st.initial_balance - st.final_balance then .stop
      else .cont

/-- The stop condition exactly as the claim words it (for comparison with
`checkSessionLimits`): `consecutive_losses ≥ maxConsecutiveLosses` or
`(initial_balance − live_balance) ≥ initial_balance * dailyLossFraction`,
with no truthiness guard on either limit. -/
def claimedStopCondition (st : SessionRiskState) (cfg : SessionLimitsConfig) : Prop :=
  cfg.max_consecutive_losses ≤ st.consecutive_losses ∨
    st.initial_balance * cfg.daily_loss_limit_percentage ≤
      st.initial_balance - st.final_balance

example : approveTrade
    (some ⟨100, 100, 0, 0, 0, .active, none⟩) (some ⟨.num 100⟩) = true := by decide

example : approveTrade
    (some ⟨100, 100, 0, 0, 0, .active, none⟩) (some ⟨.nan⟩) = true := by decide

example : checkSessionLimits
    (some ⟨100, 100, 3, some ⟨3, 1/10⟩⟩) = .stop := by decide

/-- TradingEngine.applyMartingaleStrategy
(src/unnamed/part_002 = services/TradingEngine.js, lines 37-52).
If `typeof baseStake !== 'number' || baseStake <= 0` the source logs an
error and returns `baseStake || 1` (JS or: a truthy — e.g. negative —
baseStake is returned itself, a falsy one is replaced by 1).  Otherwise,
when the last trade failed it returns
`baseStake * Math.pow(multiplier, consecutiveLosses)` and else `baseStake`.
The multiplier is modelled as a rational (the source default is 2); the
consecutive-loss count is a natural, as it is fed from the session's
counter.  A `NaN` baseStake passes the guard (`typeof NaN === 'number'`,
`NaN <= 0` is false) and propagates through the multiplication. -/
def applyMartingaleStrategy (lastTradeFailed : Bool) (currentConsecutiveLosses : ℕ)
    (baseStake : JSVal) (martingaleMultiplier : ℚ := 2) : JSVal :=
  if ¬ baseStake.isNumberType ∨ baseStake.jsLe (.num 0) then
    baseStake.jsOr (.num 1)
  else if lastTradeFailed then
    match baseStake with
    | .num q => .num (q * martingaleMultiplier ^ currentConsecutiveLosses)
    | _ => .nan
  else baseStake

example : applyMartingaleStrategy true 3 (.num 10) 2 = .num 80 := by
  norm_num [applyMartingaleStrategy, JSVal.isNumberType, JSVal.jsLe]
example : applyMartingaleStrategy false 7 (.num 10) 2 = .num 10 := by decide
example : applyMartingaleStrategy true 0 (.num (-5)) 2 = .num (-5) := by decide
example : applyMartingaleStrategy true 0 (.num 0) 2 = .num 1 := by decide
example : applyMartingaleStrategy true 2 .undef 2 = .num 1 := by decide

/-- The scheduler state of the trade queue
(src/services/TradingSessionManager.js): the pending `tradeQueue` (only
its length matters for the concurrency bound), the in-flight counter
`currentTrades`, and the configured `MAX_CONCURRENT_TRADES`. -/
structure SchedState where
  tradeQueue : ℕ
  currentTrades : ℕ
  maxConcurrentTrades : ℕ
deriving DecidableEq, Repr

/-- TradingSessionManager.processTradeQueue
(src/services/TradingSessionManager.js lines 263-313), loop part:
`while (this.tradeQueue.length > 0 && this.currentTrades < this.MAX_CONCURRENT_TRADES)`
shift one job and increment `currentTrades`.  The launched executions
settle later (their `.finally` is a separate event-loop turn), so within
one synchronous loop the effect is exactly: launch
`min(queue, max − current)` jobs. -/
def processTradeQueue (s : SchedState) : SchedState :=
  let k := min s.tradeQueue (s.maxConcurrentTrades - s.currentTrades)
  { s with tradeQueue := s.tradeQueue - k, currentTrades := s.currentTrades + k }

/-- The atomic scheduler events, each running to completion on the single
JS thread: `enqueue` (handleTick pushes a job, lines 249-255),
`dispatch` (a processTradeQueue cycle), and `complete` (the `.finally`
of one launched execution, lines 291-302: decrement `currentTrades`
first, then pull further work from the queue). -/
inductive SchedOp where
  | enqueue
  | dispatch
  | complete
deriving DecidableEq, Repr

/-- Apply one scheduler event to the scheduler state.  A `complete` event
only occurs while a trade is in flight; the guard keeps the function
total on unreachable states. -/
def applySchedOp (s : SchedState) : SchedOp → SchedState
  | .enqueue => { s with tradeQueue := s.tradeQueue + 1 }
  | .dispatch => processTradeQueue s
  | .complete =>
    if 0 < s.currentTrades then
      processTradeQueue { s with currentTrades := s.currentTrades - 1 }
    else s

/-- Run a sequence of scheduler events. -/
def runSched (init : SchedState) (ops : List SchedOp) : SchedState :=
  ops.foldl applySchedOp init

example : (runSched ⟨7, 0, 5⟩ [.enqueue, .dispatch]).currentTrades = 5 := by decide
example : (runSched ⟨7, 0, 5⟩ [.dispatch, .complete]).currentTrades = 5 := by decide

/-- The stop reasons that `stopSession` distinguishes
(src/services/TradingSessionManager.js lines 191-196); `other` stands for
any reason string outside the four recognised ones. -/
inductive StopReason where
  | user_request
  | risk_limit_breach
  | market_data_error
  | emergency_system_shutdown
  | other
deriving DecidableEq, Repr

/-- The terminal status `stopSession` derives from the stop reason
(src/services/TradingSessionManager.js lines 191-196). -/
def finalStatusFor : StopReason → SessionStatus
  | .risk_limit_breach => .stopped_auto
  | .market_data_error => .stopped_auto
  | .emergency_system_shutdown => .stopped_auto
  | .user_request => .stopped_user
  | .other => .completed

/-- The in-memory state of a `TradingSessionManager` that `stopSession`
reads and writes: the `isActive` flag, the in-memory session document
handle, the pending queue (length), the in-flight counter and the
Martingale flag. -/
structure MgrState where
  isActive : Bool
  session : Option SessionDoc
  tradeQueue : ℕ
  currentTrades : ℕ
  lastTradeFailed : Bool
deriving DecidableEq, Repr

/-- JS `this.session?.status === 'active'` (false when the session handle
is null, since `undefined !== 'active'`). -/
def sessionDocActive : Option SessionDoc → Bool
  | some s => match s.status with | .active => true | _ => false
  | none => false

/-- Synchronous prefix of TradingSessionManager.stopSession
(src/services/TradingSessionManager.js lines 140-154), run after the
line-135 guard and before the first `await` of the drain loop
(lines 163-167): flip `isActive` to false and clear the trade queue.
The in-memory session status is still whatever it was — the terminal
status is only written by the later finalize step, so a call suspended
here leaves a window in which `isActive` is false but the status is
still `active`. -/
def stopSessionBegin (st : MgrState) : MgrState :=
  { st with isActive := false, tradeQueue := 0 }

/-- Resumption of stopSession after its awaits (drain loop lines
163-167, `closeOpenTrades`, `calculateFinalBalance`): when a session
document exists, persist one atomic update (line 198) setting
`session_end` to the current time, `final_balance` to the balance
returned by `calculateFinalBalance` (the session's recorded
`final_balance`), and `status` to the terminal status derived from the
reason, and replace the in-memory handle by the updated document
(line 209). -/
def stopSessionFinalize (st : MgrState) (reason : StopReason) (now : ℚ) : MgrState :=
  match st.session with
  | some s =>
    { st with session := some { s with
        session_end := some now,
        final_balance := s.final_balance,
        status := finalStatusFor reason } }
  | none => st

/-- TradingSessionManager.stopSession
(src/services/TradingSessionManager.js lines 134-233), one call running
to completion with no other call interleaved.
Guard (line 135): if `!this.isActive && this.session?.status !== 'active'`
the call returns at once, a no-op; otherwise the synchronous prefix runs
and then the finalize step. -/
def stopSession (st : MgrState) (reason : StopReason) (now : ℚ) : MgrState :=
  if !st.isActive && !(sessionDocActive st.session) then st
  else stopSessionFinalize (stopSessionBegin st) reason now

/-- Two stopSession calls where the second arrives while the first is
still stopping: the first call passes the guard, runs its synchronous
prefix (`stopSessionBegin`) and suspends in the drain loop
(src/services/TradingSessionManager.js lines 163-167).  The second call
now checks the line-135 guard: `isActive` is already false but the
in-memory session status is still `active`, so the guard does NOT fire
and the second call runs its own prefix and suspends in its own waits.
The first call resumes and persists its terminal update (line 198),
then the second call resumes and persists its own update with its own
reason and time — both orders of the two `findByIdAndUpdate` writes are
reachable; this function models the one where the second call's write
lands last. -/
def stopTwiceInterleaved (st : MgrState) (r1 r2 : StopReason) (t1 t2 : ℚ) : MgrState :=
  if !st.isActive && !(sessionDocActive st.session) then
    stopSession st r2 t2
  else
    let stA := stopSessionBegin st
    if !stA.isActive && !(sessionDocActive stA.session) then
      stopSessionFinalize stA r1 t1
    else
      stopSessionFinalize (stopSessionFinalize (stopSessionBegin stA) r1 t1) r2 t2

/-- The orchestrator's handler for a MarketDataStream `error` event
(src/services/TradingSessionManager.js lines 42-45): it stops the session
with reason `market_data_error`. -/
def onStreamError (st : MgrState) (now : ℚ) : MgrState :=
  stopSession st .market_data_error now

/-- Outcome field of a settled trade as compared by `updateSessionStats`:
the source only tests `result === 'win'` and `result === 'loss'`, so all
other strings (e.g. a pending status) collapse to `other`. -/
inductive TradeOutcome where
  | win
  | loss
  | other
deriving DecidableEq, Repr

/-- The fields of the venue trade result that `recordTrade` and
`updateSessionStats` consume. -/
structure TradeResult where
  result : TradeOutcome
  stake : ℚ
  payout : ℚ
deriving DecidableEq, Repr

/-- `profitOrLoss` (src/services/TradingSessionManager.js line 474):
`payout - stake` on a win, `-stake` otherwise. -/
def profitOrLoss (tr : TradeResult) : ℚ :=
  if tr.result = .win then tr.payout - tr.stake else -tr.stake

/-- The persisted Trade record fields relevant here
(src/services/TradingSessionManager.js lines 350-376). -/
structure TradeRec where
  stake : ℚ
  payout : ℚ
  result : TradeOutcome
deriving DecidableEq, Repr

/-- Build the Trade record from the venue result (recordTrade,
src/services/TradingSessionManager.js lines 350-376). -/
def mkTradeRec (tr : TradeResult) : TradeRec :=
  { stake := tr.stake, payout := tr.payout, result := tr.result }

/-- The persisted database contents the core touches: the Trade records
and the session's TradingSession document. -/
structure Db where
  trades : List TradeRec
  sessionDoc : SessionDoc
deriving DecidableEq, Repr

/-- The update object that `updateSessionStats` builds synchronously
from the venue result and the in-memory session handle
(src/services/TradingSessionManager.js lines 476-488): the `$inc` of
`winning_trades`, the optional `$set` of `consecutive_losses`
(computed from the HANDLE's counter, not the database's), and the
profit-or-loss later added to the balance. -/
structure PendingStats where
  incWin : ℕ
  clSet : Option ℕ
  pl : ℚ
deriving DecidableEq, Repr

/-- Synchronous phase of `updateSessionStats`
(src/services/TradingSessionManager.js lines 473-488): reads
`this.session.consecutive_losses` from the in-memory handle and builds
the update object before any database call suspends. -/
def computeStatUpdates (tr : TradeResult) (handle : SessionDoc) : PendingStats :=
  { incWin := if tr.result = .win then 1 else 0
    clSet := match tr.result with
      | .win => some 0
      | .loss => some (handle.consecutive_losses + 1)
      | .other => none
    pl := profitOrLoss tr }

/-- Effect of `TradingSession.findByIdAndUpdate` with the update object
(src/services/TradingSessionManager.js lines 476-497): `$inc`
`total_trades` by 1 and `winning_trades` by the win flag, and `$set`
`consecutive_losses` when present. -/
def applyStatUpdatesDoc (u : PendingStats) (doc : SessionDoc) : SessionDoc :=
  let d := { doc with
    total_trades := doc.total_trades + 1
    winning_trades := doc.winning_trades + u.incWin }
  match u.clSet with
  | some n => { d with consecutive_losses := n }
  | none => d

/-- The full session delta of one settlement as persisted by
`findByIdAndUpdate` followed by the balance adjustment and `save`
(src/services/TradingSessionManager.js lines 493-517). -/
def applySessionDelta (u : PendingStats) (doc : SessionDoc) : SessionDoc :=
  let d := applyStatUpdatesDoc u doc
  { d with final_balance := d.final_balance + u.pl }

/-- Injected failure points inside the transactional scope of
`executeTrade` (src/services/TradingSessionManager.js lines 444-449):
the `Trade.create` insert (recordTrade, line 380), the
`findByIdAndUpdate` (line 493), and the balance `save` (line 514). -/
structure TxnFailure where
  failInsert : Bool
  failUpdate : Bool
  failSave : Bool
deriving DecidableEq, Repr

/-- Result of one run of the recording scope: the database (with
whatever raw writes happened), the in-memory session handle, the
`lastTradeFailed` flag, and whether the scope succeeded. -/
structure TxnOutcome where
  db : Db
  handle : SessionDoc
  lastTradeFailed : Bool
  ok : Bool
deriving DecidableEq, Repr

/-- Raw body of the transactional scope in `executeTrade`
(src/services/TradingSessionManager.js lines 444-449 calling
`recordTrade` lines 344-387 and `updateSessionStats` lines 467-537),
with the database writes applied as they happen (no rollback yet).
The in-memory handle and `lastTradeFailed` are only reassigned after the
final `save` succeeds (lines 512-530), so every failure leaves them
untouched; the flag becomes `profitOrLoss <= 0` (line 529). -/
def txnBody (f : TxnFailure) (tr : TradeResult) (handle : SessionDoc)
    (ltf : Bool) (db : Db) : TxnOutcome :=
  if f.failInsert then ⟨db, handle, ltf, false⟩
  else
    let db1 : Db := { db with trades := db.trades ++ [mkTradeRec tr] }
    let u := computeStatUpdates tr handle
    if f.failUpdate then ⟨db1, handle, ltf, false⟩
    else
      let doc1 := applyStatUpdatesDoc u db1.sessionDoc
      let db2 : Db := { db1 with sessionDoc := doc1 }
      let doc2 := { doc1 with final_balance := doc1.final_balance + u.pl }
      if f.failSave then ⟨db2, handle, ltf, false⟩
      else ⟨{ db2 with sessionDoc := doc2 }, doc2, decide (u.pl ≤ 0), true⟩

/-- `mongoose.withTransaction` around the recording scope
(src/services/TradingSessionManager.js lines 445-449): on success the
raw writes commit; on failure the database reverts to the snapshot taken
at scope entry while the in-memory values are whatever the body left
(Mongo does not roll back process memory), and the error is rethrown to
the caller (line 459), modelled by `ok = false`. -/
def executeTradeTxn (f : TxnFailure) (tr : TradeResult) (handle : SessionDoc)
    (ltf : Bool) (db : Db) : TxnOutcome :=
  let r := txnBody f tr handle ltf db
  if r.ok then r else { r with db := db }

/-- No injected failure. -/
def noTxnFailure : TxnFailure := ⟨false, false, false⟩

/-- Two concurrently in-flight settlements whose executions interleave at
the first database suspension point: both build their update objects
from the same in-memory handle (synchronous phase,
src/services/TradingSessionManager.js lines 473-488) before either
`findByIdAndUpdate`/`save` lands; then both transactions commit in
order, each replacing the handle (line 519).  Returns the final handle
and database. -/
def twoSettlementsInterleaved (tr1 tr2 : TradeResult) (handle : SessionDoc)
    (db : Db) : SessionDoc × Db :=
  let u1 := computeStatUpdates tr1 handle
  let u2 := computeStatUpdates tr2 handle
  let doc1 := applySessionDelta u1 db.sessionDoc
  let doc2 := applySessionDelta u2 doc1
  (doc2, { db with
    trades := db.trades ++ [mkTradeRec tr1, mkTradeRec tr2]
    sessionDoc := doc2 })

/-- MarketDataStream reconnection constants
(src/services/MarketDataStream.js lines 13-14). -/
def MAX_RECONNECTS : ℕ := 5

/-- Base reconnect delay in milliseconds
(src/services/MarketDataStream.js line 14). -/
def RECONNECT_DELAY_BASE : ℚ := 1000

/-- What `_onClose` does after emitting the close event
(src/services/MarketDataStream.js lines 106-114): schedule a reconnect
or surface a terminal error. -/
inductive CloseAction where
  | scheduleReconnect (delay : ℚ) (newAttempts : ℕ)
  | emitError
deriving DecidableEq, Repr

/-- MarketDataStream reconnect decision on an unexpected close
(src/services/MarketDataStream.js lines 106-114): while
`reconnectAttempts < MAX_RECONNECTS`, schedule a reconnect after
`2 ^ reconnectAttempts * RECONNECT_DELAY_BASE` plus a jitter
(`Math.random() * 1000`, modelled as a parameter) and increment the
attempt counter; otherwise emit a terminal error. -/
def onCloseAction (reconnectAttempts : ℕ) (jitter : ℚ) : CloseAction :=
  if reconnectAttempts < MAX_RECONNECTS then
    .scheduleReconnect ((2 : ℚ) ^ reconnectAttempts * RECONNECT_DELAY_BASE + jitter)
      (reconnectAttempts + 1)
  else .emitError

/-- One scheduler event preserves the concurrency bound
`currentTrades ≤ maxConcurrentTrades`. -/
theorem applySchedOp_preserves_bound (s : SchedState) (op : SchedOp)
    (h : s.currentTrades ≤ s.maxConcurrentTrades) :
    (applySchedOp s op).currentTrades ≤ (applySchedOp s op).maxConcurrentTrades := by
  cases op with
  | enqueue => simpa [applySchedOp] using h
  | dispatch => simp [applySchedOp, processTradeQueue]; omega
  | complete =>
    by_cases hc : 0 < s.currentTrades
    · simp [applySchedOp, hc, processTradeQueue]; omega
    · simpa [applySchedOp, hc] using h

/-- C1 counterexample: the claim says `approveTrade` returns false when
the stake is `NaN`, but with a live balance of 100 and `analysis.amount`
equal to `NaN` the source approves the trade: `typeof NaN === 'number'`
passes the type guard and both `NaN <= 0` and `NaN > balance` evaluate
to false, so none of the rejection branches fires. -/
theorem C1_counterexample :
    approveTrade (some ⟨100, 100, 0, 0, 0, .active, none⟩) (some ⟨.nan⟩) = true := by
  decide

/-- C1 (amended): `approveTrade(session, signal)` returns false when the
stake has non-number type, is a number ≤ 0, or strictly exceeds the
session's live balance, and when session or analysis is missing; it
returns true otherwise — in particular when the stake equals the balance
exactly, and also when the stake is `NaN` (which passes the `typeof`
guard and fails both numeric comparisons). -/
theorem C1_approveTrade_amended (s : SessionDoc) (q : ℚ) :
    (approveTrade (some s) (some ⟨.num q⟩) = true ↔ 0 < q ∧ q ≤ s.final_balance)
    ∧ approveTrade (some s) (some ⟨.nan⟩) = true
    ∧ approveTrade (some s) (some ⟨.undef⟩) = false
    ∧ approveTrade none (some ⟨.num q⟩) = false
    ∧ approveTrade (some s) none = false := by
  refine ⟨?_, by simp [approveTrade, JSVal.isNumberType, JSVal.jsLe, JSVal.jsGt],
    by simp [approveTrade, JSVal.isNumberType], by simp [approveTrade],
    by simp [approveTrade]⟩
  simp only [approveTrade, JSVal.isNumberType, JSVal.jsLe, JSVal.jsGt]
  by_cases h1 : q ≤ 0
  · simp [h1]
  · by_cases h2 : s.final_balance < q
    · simp [h1, h2]
    · simp [h1, h2, le_of_not_lt h2, lt_of_not_le h1]

/-- C2: for every initial scheduler state satisfying the bound (the
constructor starts with `currentTrades = 0`) and every sequence of
enqueue / dispatch / completion events, the in-flight count
`currentTrades` never exceeds `MAX_CONCURRENT_TRADES`: dispatch launches
only while the queue is non-empty and the count is strictly below the
maximum, and each completion decrements before pulling further work. -/
theorem C2_concurrency_bound (init : SchedState) (ops : List SchedOp)
    (h : init.currentTrades ≤ init.maxConcurrentTrades) :
    (runSched init ops).currentTrades ≤ (runSched init ops).maxConcurrentTrades := by
  induction ops generalizing init with
  | nil => simpa [runSched] using h
  | cons op rest ih =>
    have hstep := applySchedOp_preserves_bound init op h
    simpa [runSched] using ih (applySchedOp init op) hstep

/-- Witness for C2 at a concrete burst: 3 queued jobs, cap 5, a dispatch
cycle, one more enqueue and one completion. -/
theorem C2_concurrency_bound_witness :
    (0 : ℕ) ≤ 5 ∧
    (runSched ⟨3, 0, 5⟩ [.dispatch, .enqueue, .complete]).currentTrades ≤
      (runSched ⟨3, 0, 5⟩ [.dispatch, .enqueue, .complete]).maxConcurrentTrades :=
  ⟨by decide, C2_concurrency_bound ⟨3, 0, 5⟩ [.dispatch, .enqueue, .complete] (by decide)⟩

/-- C3 counterexample: the claim says a second stop call made while the
session is already stopping is a no-op and that stopping twice leaves
the same observable state as stopping once.  Take an active session,
a first call `stopSession('user_request')` at time 10, and a second
call `stopSession('market_data_error')` at time 20 arriving while the
first is suspended in its drain loop: the second call's guard sees
`isActive = false` but the in-memory status still `active`, so it runs
the full body, and when its terminal write lands last the session ends
with status `stopped_auto` and end time 20 — while a single call leaves
`stopped_user` and end time 10.  The second call is not a no-op and the
two-call state differs from the one-call state. -/
theorem C3_counterexample :
    (stopTwiceInterleaved ⟨true, some ⟨1000, 900, 1, 5, 2, .active, none⟩, 2, 0, false⟩
        .user_request .market_data_error 10 20).session =
      some ⟨1000, 900, 1, 5, 2, .stopped_auto, some 20⟩
    ∧ (stopSession ⟨true, some ⟨1000, 900, 1, 5, 2, .active, none⟩, 2, 0, false⟩
        .user_request 10).session =
      some ⟨1000, 900, 1, 5, 2, .stopped_user, some 10⟩ := by
  constructor <;> decide

/-- C3 (amended): `stopSession` is idempotent once a prior call has run
to completion — after one completed call the session status is terminal
and `isActive` is false, so a second call (with any reason and at any
later time) takes the line-135 early-return guard and leaves the entire
manager state, including status, end time, final balance and counters,
exactly as the first call left it.  (A second call arriving while the
first is still stopping is not covered: it re-runs the body, see the
counterexample.) -/
theorem C3_stopSession_idempotent (st : MgrState) (r1 r2 : StopReason) (t1 t2 : ℚ) :
    stopSession (stopSession st r1 t1) r2 t2 = stopSession st r1 t1 := by
  by_cases h : (!st.isActive && !(sessionDocActive st.session)) = true
  · have hinner : stopSession st r1 t1 = st := by rw [stopSession, if_pos h]
    rw [hinner, stopSession, if_pos h]
  · have hinner : stopSession st r1 t1 =
        stopSessionFinalize (stopSessionBegin st) r1 t1 := by
      rw [stopSession, if_neg h]
    have hguard : (!(stopSessionFinalize (stopSessionBegin st) r1 t1).isActive
        && !(sessionDocActive
          (stopSessionFinalize (stopSessionBegin st) r1 t1).session)) = true := by
      cases hs : st.session with
      | none => simp [stopSessionFinalize, stopSessionBegin, hs, sessionDocActive]
      | some s =>
        cases r1 <;>
          simp [stopSessionFinalize, stopSessionBegin, hs, sessionDocActive,
            finalStatusFor]
    rw [hinner, stopSession, if_pos hguard]

/-- C4: the Trade insert and the Session delta (`total_trades += 1`,
`winning_trades` increment on win, balance update, `consecutive_losses`
reset-or-increment) run in one transactional scope: with no failure both
commit together and the in-memory handle becomes the updated document;
under a failure at any of the three injected points (insert, update,
save) the database reverts to its snapshot, the error propagates
(`ok = false`), and the in-memory handle and Martingale flag are left
untouched because their reassignment is the last step of the scope. -/
theorem C4_recording_atomic (f : TxnFailure) (tr : TradeResult) (h : SessionDoc)
    (ltf : Bool) (db : Db) :
    executeTradeTxn f tr h ltf db =
      if f.failInsert || f.failUpdate || f.failSave then
        ⟨db, h, ltf, false⟩
      else
        ⟨⟨db.trades ++ [mkTradeRec tr],
          applySessionDelta (computeStatUpdates tr h) db.sessionDoc⟩,
          applySessionDelta (computeStatUpdates tr h) db.sessionDoc,
          decide (profitOrLoss tr ≤ 0), true⟩ := by
  obtain ⟨fi, fu, fs⟩ := f
  cases fi <;> cases fu <;> cases fs <;>
    simp [executeTradeTxn, txnBody, applySessionDelta, applyStatUpdatesDoc,
      computeStatUpdates]

/-- C5 counterexample: two loss settlements whose synchronous phases both
read the same in-memory handle (consecutive_losses = 0) before either
database write lands.  The first commit sets the counter to 1, but the
second commit also writes 0 + 1 = 1, so after the second losing outcome
the counter did not increase by exactly 1 (it stayed at 1 instead of
reaching 2) — the claim fails for this interleaving. -/
theorem C5_counterexample :
    (applySessionDelta
        (computeStatUpdates ⟨.loss, 10, 0⟩ ⟨1000, 1000, 0, 0, 0, .active, none⟩)
        ⟨1000, 1000, 0, 0, 0, .active, none⟩).consecutive_losses = 1
    ∧ ((twoSettlementsInterleaved ⟨.loss, 10, 0⟩ ⟨.loss, 10, 0⟩
        ⟨1000, 1000, 0, 0, 0, .active, none⟩
        ⟨[], ⟨1000, 1000, 0, 0, 0, .active, none⟩⟩).1).consecutive_losses = 1 := by
  constructor <;>
    simp [twoSettlementsInterleaved, applySessionDelta, applyStatUpdatesDoc,
      computeStatUpdates]

/-- C5 (amended): for a settlement whose stats update runs without
overlapping another (its synchronous phase reads the handle the previous
settlement left), the session's `consecutive_losses` is set to 0 after a
winning outcome and to the handle's counter plus exactly 1 after a
losing outcome, both on the committed document and on the refreshed
in-memory handle; overlapping in-flight settlements may instead read the
same stale handle (see the counterexample). -/
theorem C5_amended_consecutive_losses (tr : TradeResult) (h : SessionDoc)
    (ltf : Bool) (db : Db) :
    (executeTradeTxn noTxnFailure tr h ltf db).handle.consecutive_losses =
      (match tr.result with
        | .win => 0
        | .loss => h.consecutive_losses + 1
        | .other => db.sessionDoc.consecutive_losses)
    ∧ (executeTradeTxn noTxnFailure tr h ltf db).db.sessionDoc.consecutive_losses =
      (match tr.result with
        | .win => 0
        | .loss => h.consecutive_losses + 1
        | .other => db.sessionDoc.consecutive_losses) := by
  cases htr : tr.result <;>
    simp [executeTradeTxn, txnBody, noTxnFailure, applyStatUpdatesDoc,
      computeStatUpdates, htr]

/-- C6 counterexample: the claim says a non-positive baseStake makes the
caller fall back to a minimum stake of exactly 1 unit, but for the
negative baseStake −5 the source returns `baseStake || 1 = -5` (a
negative number is truthy in JS), not 1. -/
theorem C6_counterexample :
    applyMartingaleStrategy true 0 (.num (-5)) 2 = .num (-5) := by decide

/-- C6 (amended): a baseStake that fails the guard
(`typeof baseStake !== 'number' || baseStake <= 0`) never raises an
error; the function returns `baseStake || 1`, i.e. the defensive
fallback of exactly 1 unit only when baseStake is falsy (0 or of
non-number type), while a negative numeric baseStake is returned
unchanged. -/
theorem C6_martingale_fallback (ltf : Bool) (n : ℕ) (m q : ℚ) (hq : q ≤ 0) :
    applyMartingaleStrategy ltf n (.num q) m = (if q = 0 then .num 1 else .num q)
    ∧ applyMartingaleStrategy ltf n .undef m = .num 1 := by
  refine ⟨?_, by simp [applyMartingaleStrategy, JSVal.isNumberType, JSVal.jsOr,
    JSVal.truthy]⟩
  simp only [applyMartingaleStrategy, JSVal.isNumberType, JSVal.jsLe, JSVal.jsOr,
    JSVal.truthy]
  by_cases h0 : q = 0 <;> simp [h0, hq]

/-- Witness for C6 at baseStake 0: the fallback stake is exactly 1. -/
theorem C6_martingale_fallback_witness :
    ((0 : ℚ) ≤ 0) ∧
    (applyMartingaleStrategy true 2 (.num 0) 2 =
        (if (0 : ℚ) = 0 then .num 1 else .num 0)
      ∧ applyMartingaleStrategy true 2 .undef 2 = .num 1) :=
  ⟨le_refl 0, C6_martingale_fallback true 2 2 0 (le_refl 0)⟩

/-- C7: for every baseStake > 0, multiplier and consecutive-loss count
`n`, the staking strategy returns `baseStake * multiplier ^ n` when the
previous trade failed and `baseStake` otherwise; in particular the stake
is 10 with `lastTradeFailed = false` for any `n`, and 80 for
`(true, 3, 10, 2)`.  The function is a pure Lean function of its
arguments, hence deterministic with no internal state. -/
theorem C7_nextStake (n : ℕ) (base mult : ℚ) (hb : 0 < base) :
    applyMartingaleStrategy true n (.num base) mult = .num (base * mult ^ n)
    ∧ applyMartingaleStrategy false n (.num base) mult = .num base
    ∧ applyMartingaleStrategy false n (.num 10) 2 = .num 10
    ∧ applyMartingaleStrategy true 3 (.num 10) 2 = .num 80 := by
  have hb10 : ¬ (10 : ℚ) ≤ 0 := by norm_num
  refine ⟨?_, ?_, by simp [applyMartingaleStrategy, JSVal.isNumberType, JSVal.jsLe,
    hb10], by norm_num [applyMartingaleStrategy, JSVal.isNumberType, JSVal.jsLe]⟩ <;>
    simp [applyMartingaleStrategy, JSVal.isNumberType, JSVal.jsLe, not_le.mpr hb]

/-- Witness for C7 at the documented instance `nextStake(true, 3, 10, 2)`. -/
theorem C7_nextStake_witness :
    ((0 : ℚ) < 10) ∧
    (applyMartingaleStrategy true 3 (.num 10) 2 = .num (10 * 2 ^ 3)
      ∧ applyMartingaleStrategy false 3 (.num 10) 2 = .num 10
      ∧ applyMartingaleStrategy false 3 (.num 10) 2 = .num 10
      ∧ applyMartingaleStrategy true 3 (.num 10) 2 = .num 80) :=
  ⟨by norm_num, C7_nextStake 3 10 2 (by norm_num)⟩

/-- C8 counterexample: with `max_consecutive_losses = 0` (a falsy JS
value) and 3 consecutive losses, the condition the claim states
(`consecutive_losses ≥ maxConsecutiveLosses`) holds, yet
`checkSessionLimits` advises `continue` because the source guards each
check with the truthiness of the config field and skips it when the
limit is 0. -/
theorem C8_counterexample :
    claimedStopCondition ⟨100, 100, 3, some ⟨0, 0⟩⟩ ⟨0, 0⟩
    ∧ checkSessionLimits (some ⟨100, 100, 3, some ⟨0, 0⟩⟩) = .cont := by
  exact ⟨Or.inl (Nat.zero_le 3), by decide⟩

/-- C8 (amended): `checkSessionLimits` advises `stop` iff a truthy
(non-zero) `max_consecutive_losses` is reached
(`consecutive_losses ≥ limit`, boundary inclusive) or a truthy
(non-zero) `daily_loss_limit_percentage` is breached
(`initial_balance − final_balance ≥ initial_balance * percentage`,
boundary inclusive); a zero limit disables its check. -/
theorem C8_amended_limits (ib fb : ℚ) (cl : ℕ) (cfg : SessionLimitsConfig) :
    checkSessionLimits (some ⟨ib, fb, cl, some cfg⟩) = .stop ↔
      (cfg.max_consecutive_losses ≠ 0 ∧ cfg.max_consecutive_losses ≤ cl) ∨
      (cfg.daily_loss_limit_percentage ≠ 0 ∧
        ib * cfg.daily_loss_limit_percentage ≤ ib - fb) := by
  simp only [checkSessionLimits]
  by_cases h1 : cfg.max_consecutive_losses ≠ 0 ∧ cfg.max_consecutive_losses ≤ cl
  · simp [h1]
  · by_cases h2 : cfg.daily_loss_limit_percentage ≠ 0 ∧
        ib * cfg.daily_loss_limit_percentage ≤ ib - fb
    · simp [h1, h2]
    · simp [h1, h2]

/-- C9: on an unexpected close with fewer than `MAX_RECONNECTS = 5`
attempts used, a reconnect is scheduled after
`min(2^attempt * baseDelay, cap) + jitter` (with the cap equal to
`2^5 * baseDelay`, the delay never reaches it because attempts are
bounded) and the attempt counter increments; once the cap on attempts is
reached the stream surfaces a terminal error, and the orchestrator's
error handler stops the session with reason `market_data_error`, which
maps to terminal status `stopped_auto` with the end time set and the
manager inactive. -/
theorem C9_feed_reconnect (a : ℕ) (j t : ℚ) (s : SessionDoc)
    (hs : s.status = .active) :
    (a < MAX_RECONNECTS →
      onCloseAction a j = .scheduleReconnect
        (min ((2 : ℚ) ^ a * RECONNECT_DELAY_BASE)
          ((2 : ℚ) ^ MAX_RECONNECTS * RECONNECT_DELAY_BASE) + j) (a + 1))
    ∧ (MAX_RECONNECTS ≤ a → onCloseAction a j = .emitError)
    ∧ (∀ (qn cn : ℕ) (ltf act : Bool),
        onStreamError ⟨act, some s, qn, cn, ltf⟩ t =
          ⟨false, some { s with session_end := some t, status := .stopped_auto },
            0, cn, ltf⟩) := by
  refine ⟨?_, ?_, ?_⟩
  · intro ha
    have hle : (2 : ℚ) ^ a * RECONNECT_DELAY_BASE ≤
        (2 : ℚ) ^ MAX_RECONNECTS * RECONNECT_DELAY_BASE := by
      have : (2 : ℚ) ^ a ≤ (2 : ℚ) ^ MAX_RECONNECTS :=
        pow_le_pow_right₀ (by norm_num) (le_of_lt ha)
      have hbase : (0 : ℚ) ≤ RECONNECT_DELAY_BASE := by norm_num [RECONNECT_DELAY_BASE]
      exact mul_le_mul_of_nonneg_right this hbase
    rw [onCloseAction, if_pos ha, min_eq_left hle]
  · intro ha
    rw [onCloseAction, if_neg (not_lt.mpr ha)]
  · intro qn cn ltf act
    have hact : sessionDocActive (some s) = true := by
      simp [sessionDocActive, hs]
    rw [onStreamError, stopSession]
    cases act <;> simp [hact, stopSessionFinalize, stopSessionBegin, finalStatusFor]

/-- Witness for C9: a concrete active session, attempt 3 and jitter 7. -/
theorem C9_feed_reconnect_witness :
    (SessionStatus.active = SessionStatus.active) ∧
    ((3 < MAX_RECONNECTS →
      onCloseAction 3 7 = .scheduleReconnect
        (min ((2 : ℚ) ^ 3 * RECONNECT_DELAY_BASE)
          ((2 : ℚ) ^ MAX_RECONNECTS * RECONNECT_DELAY_BASE) + 7) 4)
    ∧ (MAX_RECONNECTS ≤ 3 → onCloseAction 3 7 = .emitError)
    ∧ (∀ (qn cn : ℕ) (ltf act : Bool),
        onStreamError ⟨act, some ⟨100, 90, 2, 4, 1, .active, none⟩, qn, cn, ltf⟩ 5 =
          ⟨false, some ⟨100, 90, 2, 4, 1, .stopped_auto, some 5⟩, 0, cn, ltf⟩)) :=
  ⟨rfl, C9_feed_reconnect 3 7 5 ⟨100, 90, 2, 4, 1, .active, none⟩ rfl⟩

/-- C10: for a settled trade whose result is neither win nor loss (for
example a pending or unknown status), `updateSessionStats` still
increments `total_trades` by 1 and adds 0 to `winning_trades`, leaves
`consecutive_losses` completely unchanged (no `$set` branch fires), and
decreases the balance by the stake exactly as for a loss
(`profitOrLoss = -stake` because the result is not a win). -/
theorem C10_unknown_result_frame (stake payout : ℚ) (h : SessionDoc)
    (ltf : Bool) (db : Db) :
    (executeTradeTxn noTxnFailure ⟨.other, stake, payout⟩ h ltf db).db.sessionDoc.total_trades
        = db.sessionDoc.total_trades + 1
    ∧ (executeTradeTxn noTxnFailure ⟨.other, stake, payout⟩ h ltf db).db.sessionDoc.winning_trades
        = db.sessionDoc.winning_trades
    ∧ (executeTradeTxn noTxnFailure ⟨.other, stake, payout⟩ h ltf db).db.sessionDoc.consecutive_losses
        = db.sessionDoc.consecutive_losses
    ∧ (executeTradeTxn noTxnFailure ⟨.other, stake, payout⟩ h ltf db).db.sessionDoc.final_balance
        = db.sessionDoc.final_balance - stake := by
  refine ⟨?_, ?_, ?_, ?_⟩ <;>
    simp [executeTradeTxn, txnBody, noTxnFailure, applyStatUpdatesDoc,
      computeStatUpdates, profitOrLoss, sub_eq_add_neg]
